import Mathlib

/-!
# Verification of `fsf/elements_dataclasses.py` (xsequence)

Shallow embedding of the element dataclasses of the repository.
Python floats are modelled as rationals (`ℚ`), Python lists of floats as
`List ℚ`, `Optional` fields as `Option`, and a constructor that can raise
(an `assert` or an `IndexError`) as an `Option`-returning function where
`none` is the raised error.
-/

namespace Xseq

/-! ## ElementID (lines 19-27) -/

structure ElementID where
  slot_id : Option ℤ
  assembly_id : Option ℤ
  deriving Repr, DecidableEq

/-- `ElementID.__init__` followed by `__post_init__`: a `slot_id` or
`assembly_id` equal to `0` (Python compares `== 0.0`) is replaced by `None`. -/
def ElementID.make (slot_id assembly_id : Option ℤ) : ElementID :=
  { slot_id := if slot_id = some 0 then none else slot_id
    assembly_id := if assembly_id = some 0 then none else assembly_id }

/-! ## ElementPosition (lines 29-107) -/

/-- The `_position` dict `{'centre': _, 'start': _, 'end': _}` computed by
`calc_position`. -/
structure PositionDict where
  centre : ℚ
  start : ℚ
  endpos : ℚ
  deriving Repr, DecidableEq

structure ElementPosition where
  length : ℚ
  location : ℚ
  reference : ℚ
  reference_element : String
  mech_sep : ℚ
  position : PositionDict
  deriving Repr, DecidableEq

/-- `ElementPosition.calc_position` (lines 101-107): recompute the position
dict from the stored length / location / reference. -/
def calcPosition (length location reference : ℚ) : PositionDict :=
  let pos := location + reference
  { centre := pos, start := pos - length / 2, endpos := pos + length / 2 }

/-- `ElementPosition.__init__`: the property setters store the three values
and each setter calls `calc_position`; after the last setter runs, the
position dict is computed from the final stored values. -/
def ElementPosition.make (length location reference : ℚ)
    (reference_element : String := "") (mech_sep : ℚ := 0) : ElementPosition :=
  { length := length, location := location, reference := reference
    reference_element := reference_element, mech_sep := mech_sep
    position := calcPosition length location reference }

/-- The `length` property setter (lines 55-58). -/
def ElementPosition.setLength (p : ElementPosition) (v : ℚ) : ElementPosition :=
  { p with length := v, position := calcPosition v p.location p.reference }

/-- The `location` property setter (lines 64-67). -/
def ElementPosition.setLocation (p : ElementPosition) (v : ℚ) : ElementPosition :=
  { p with location := v, position := calcPosition p.length v p.reference }

/-- The `reference` property setter (lines 73-76). -/
def ElementPosition.setReference (p : ElementPosition) (v : ℚ) : ElementPosition :=
  { p with reference := v, position := calcPosition p.length p.location v }

/-- `ElementPosition.get_position` (lines 90-94): asserts
`loc in ['centre', 'start', 'end']` (`none` models the `AssertionError`),
then returns `self._position[loc]`.  The `_position == None` branch can not
fire: a dict never compares equal to `None`. -/
def ElementPosition.getPosition (p : ElementPosition) (loc : String) : Option ℚ :=
  if loc = "centre" then some p.position.centre
  else if loc = "start" then some p.position.start
  else if loc = "end" then some p.position.endpos
  else none

/-! ## Apertures (lines 110-137) -/

structure RectangularAperture where
  aperture_size : List ℚ
  aperture_type : Option String
  aperture_offset : List ℚ
  deriving Repr, DecidableEq

/-- `RectangularAperture.__post_init__` /
`reset_offset_and_size_from_4_array` (lines 129-137): a 4-entry
`aperture_size` `[left, right, bottom, up]` is replaced by offsets and
half-sizes; any other length is stored unchanged. -/
def RectangularAperture.make (aperture_size : List ℚ) (aperture_type : Option String)
    (aperture_offset : List ℚ) : RectangularAperture :=
  match aperture_size with
  | [left, right, bottom, up] =>
      let x_offset := (left + right) / 2
      let y_offset := (bottom + up) / 2
      { aperture_size := [x_offset - left, y_offset - bottom]
        aperture_type := aperture_type
        aperture_offset := [x_offset, y_offset] }
  | _ =>
      { aperture_size := aperture_size, aperture_type := aperture_type
        aperture_offset := aperture_offset }

/-! ## DipoleEdgeData (lines 164-173) -/

structure DipoleEdgeData where
  h : ℚ
  e1 : ℚ
  side : String
  deriving Repr, DecidableEq

/-- `DipoleEdgeData.__post_init__` (lines 172-173):
`assert self.side in ('entrance', 'exit')`; `none` models the
`AssertionError`. -/
def DipoleEdgeData.make (h e1 : ℚ) (side : String) : Option DipoleEdgeData :=
  if side = "entrance" ∨ side = "exit" then some { h := h, e1 := e1, side := side }
  else none

/-! ## Multipole strength data (lines 176-237) -/

/-- `np.trim_zeros(l, trim='b')`: remove the trailing zeros of a list. -/
def trimZerosB : List ℚ → List ℚ
  | [] => []
  | x :: xs =>
      match trimZerosB xs with
      | [] => if x = 0 then [] else [x]
      | y :: ys => x :: y :: ys

/-- Lines 187-190 of `_update_arrays` for one array: `kn =
np.trim_zeros(self.kn, trim='b')` followed by `if len(kn) == 0: kn =
np.zeros(1)`. -/
def nonEmptyTrim (l : List ℚ) : List ℚ :=
  if (trimZerosB l).length = 0 then [(0 : ℚ)] else trimZerosB l

/-- `np.pad(a, (0, n - len(a)))`: append zeros up to length `n`.  In the
source `n - len(a)` is never negative because `n` is a maximum that
includes `len(a)`, so truncated subtraction on `ℕ` agrees with Python. -/
def padTo (l : List ℚ) (n : ℕ) : List ℚ :=
  l ++ List.replicate (n - l.length) 0

/-- `MultipoleStrengthData._update_arrays` (lines 186-193); the method body
of `ThinMultipoleStrengthData._update_arrays` (lines 218-225) is identical,
so both classes share this function.  Returns the updated pair of arrays
and the computed `order = max(len(kn), len(ks), min_order)` (line 191),
where `kn` / `ks` are the trimmed arrays `nonEmptyTrim kn` /
`nonEmptyTrim ks`. -/
def updateArrays (kn ks : List ℚ) (min_order : ℕ) : List ℚ × List ℚ × ℕ :=
  (padTo (nonEmptyTrim kn)
      (max (max (nonEmptyTrim kn).length (nonEmptyTrim ks).length) min_order),
   padTo (nonEmptyTrim ks)
      (max (max (nonEmptyTrim kn).length (nonEmptyTrim ks).length) min_order),
   max (max (nonEmptyTrim kn).length (nonEmptyTrim ks).length) min_order)

structure MultipoleStrengthData where
  kn : List ℚ
  ks : List ℚ
  polarity : Option ℤ
  order : ℕ
  deriving Repr, DecidableEq

/-- `MultipoleStrengthData.__init__` + `__post_init__` (lines 183-184):
store the fields and run `_update_arrays()` with its default
`min_order = 1`. -/
def MultipoleStrengthData.make (kn ks : List ℚ) (polarity : Option ℤ) :
    MultipoleStrengthData :=
  let u := updateArrays kn ks 1
  { kn := u.1, ks := u.2.1, polarity := polarity, order := u.2.2 }

structure ThinMultipoleStrengthData where
  knl : List ℚ
  ksl : List ℚ
  polarity : Option ℤ
  order : ℕ
  deriving Repr, DecidableEq

/-- `ThinMultipoleStrengthData.__init__` + `__post_init__`
(lines 215-216). -/
def ThinMultipoleStrengthData.make (knl ksl : List ℚ) (polarity : Option ℤ) :
    ThinMultipoleStrengthData :=
  let u := updateArrays knl ksl 1
  { knl := u.1, ksl := u.2.1, polarity := polarity, order := u.2.2 }

/-- The repeated `__post_init__` pattern `if self.kmax == 0.0:
self.kmax = None` of QuadrupoleData / SextupoleData / OctupoleData. -/
def zeroToNone (x : Option ℚ) : Option ℚ :=
  if x = some 0 then none else x

structure QuadrupoleData where
  kn : List ℚ
  ks : List ℚ
  polarity : Option ℤ
  kmax : Option ℚ
  kmin : Option ℚ
  order : ℕ
  deriving Repr, DecidableEq

/-- `QuadrupoleData.__init__` + `__post_init__` (lines 240-256).  The `k1` /
`k1s` property setters run during `__init__` and write into `kn[1]` /
`ks[1]`; a missing `k1` (`none`) is replaced by `0.0` in `__post_init__`
(the `isinstance(..., property)` branch), so the written value is
`k1.getD 0`.  Writing raises `IndexError` (`none`) when the array is too
short.  Then `kmax == 0.0` / `kmin == 0.0` become `None` and
`_update_arrays(min_order=2)` runs. -/
def QuadrupoleData.make (kn ks : List ℚ) (polarity : Option ℤ)
    (k1 k1s kmax kmin : Option ℚ) : Option QuadrupoleData :=
  if 1 < kn.length ∧ 1 < ks.length then
    let kn1 := kn.set 1 (k1.getD 0)
    let ks1 := ks.set 1 (k1s.getD 0)
    let u := updateArrays kn1 ks1 2
    some { kn := u.1, ks := u.2.1, polarity := polarity
           kmax := zeroToNone kmax, kmin := zeroToNone kmin, order := u.2.2 }
  else none

structure SextupoleData where
  kn : List ℚ
  ks : List ℚ
  polarity : Option ℤ
  kmax : Option ℚ
  kmin : Option ℚ
  order : ℕ
  deriving Repr, DecidableEq

/-- `SextupoleData.__init__` + `__post_init__` (lines 275-291): like
`QuadrupoleData` with `k2`/`k2s` written into index 2 and
`_update_arrays(min_order=3)`. -/
def SextupoleData.make (kn ks : List ℚ) (polarity : Option ℤ)
    (k2 k2s kmax kmin : Option ℚ) : Option SextupoleData :=
  if 2 < kn.length ∧ 2 < ks.length then
    let kn1 := kn.set 2 (k2.getD 0)
    let ks1 := ks.set 2 (k2s.getD 0)
    let u := updateArrays kn1 ks1 3
    some { kn := u.1, ks := u.2.1, polarity := polarity
           kmax := zeroToNone kmax, kmin := zeroToNone kmin, order := u.2.2 }
  else none

structure OctupoleData where
  kn : List ℚ
  ks : List ℚ
  polarity : Option ℤ
  kmax : Option ℚ
  kmin : Option ℚ
  order : ℕ
  deriving Repr, DecidableEq

/-- `OctupoleData.__init__` + `__post_init__` (lines 310-326): like
`QuadrupoleData` with `k3`/`k3s` written into index 3 and
`_update_arrays(min_order=4)`. -/
def OctupoleData.make (kn ks : List ℚ) (polarity : Option ℤ)
    (k3 k3s kmax kmin : Option ℚ) : Option OctupoleData :=
  if 3 < kn.length ∧ 3 < ks.length then
    let kn1 := kn.set 3 (k3.getD 0)
    let ks1 := ks.set 3 (k3s.getD 0)
    let u := updateArrays kn1 ks1 4
    some { kn := u.1, ks := u.2.1, polarity := polarity
           kmax := zeroToNone kmax, kmin := zeroToNone kmin, order := u.2.2 }
  else none

/-! ## Spec-side definitions -/

/-- Index `j` carries a non-zero coefficient in one of the two arrays. -/
def nzAt (kn ks : List ℚ) (j : ℕ) : Prop :=
  (j < kn.length ∧ kn.getD j 0 ≠ 0) ∨ (j < ks.length ∧ ks.getD j 0 ≠ 0)

instance (kn ks : List ℚ) (j : ℕ) : Decidable (nzAt kn ks j) := by
  unfold nzAt; infer_instance

/-- `i` is the highest index carrying a non-zero coefficient in either of
the two arrays.  (Any index carrying a non-zero coefficient is below
`max kn.length ks.length`, so the bounded quantifier loses nothing.) -/
def isHighestNZ (kn ks : List ℚ) (i : ℕ) : Prop :=
  nzAt kn ks i ∧ ∀ j < max kn.length ks.length, nzAt kn ks j → j ≤ i

instance (kn ks : List ℚ) (i : ℕ) : Decidable (isHighestNZ kn ks i) := by
  unfold isHighestNZ; infer_instance

/-- The derived `_position` dict agrees with the stored length / location /
reference fields. -/
def positionConsistent (p : ElementPosition) : Prop :=
  p.position.centre = p.location + p.reference ∧
  p.position.start = p.location + p.reference - p.length / 2 ∧
  p.position.endpos = p.location + p.reference + p.length / 2

/-! ## Lemmas about `trimZerosB` and friends -/

theorem trimZerosB_cons (x : ℚ) (xs : List ℚ) :
    trimZerosB (x :: xs) =
      match trimZerosB xs with
      | [] => if x = 0 then [] else [x]
      | y :: ys => x :: y :: ys := rfl

theorem trimZerosB_replicate_zero (n : ℕ) :
    trimZerosB (List.replicate n (0 : ℚ)) = [] := by
  induction n with
  | zero => rfl
  | succ k ih => rw [List.replicate_succ]; simp [trimZerosB, ih]

theorem trimZerosB_append_replicate (l : List ℚ) (n : ℕ) :
    trimZerosB (l ++ List.replicate n (0 : ℚ)) = trimZerosB l := by
  induction l with
  | nil => simpa using trimZerosB_replicate_zero n
  | cons x xs ih => rw [List.cons_append]; simp only [trimZerosB, ih]

theorem trimZerosB_idem (l : List ℚ) :
    trimZerosB (trimZerosB l) = trimZerosB l := by
  induction l with
  | nil => rfl
  | cons x xs ih =>
    cases htx : trimZerosB xs with
    | nil =>
      by_cases hx : x = 0 <;> simp [trimZerosB, htx, hx]
    | cons y ys =>
      have h1 : trimZerosB (y :: ys) = y :: ys := by rw [← htx, ih, htx]
      have h0 : trimZerosB (x :: xs) = x :: y :: ys := by
        rw [trimZerosB_cons, htx]
      rw [h0, trimZerosB_cons, h1]

theorem trimZerosB_nonEmptyTrim (l : List ℚ) :
    trimZerosB (nonEmptyTrim l) = trimZerosB l := by
  unfold nonEmptyTrim
  split
  · rename_i h
    rw [List.length_eq_zero.mp h]
    rfl
  · exact trimZerosB_idem l

theorem trimZerosB_padTo_nonEmptyTrim (l : List ℚ) (n : ℕ) :
    trimZerosB (padTo (nonEmptyTrim l) n) = trimZerosB l := by
  unfold padTo
  rw [trimZerosB_append_replicate, trimZerosB_nonEmptyTrim]

theorem nonEmptyTrim_padTo (l : List ℚ) (n : ℕ) :
    nonEmptyTrim (padTo (nonEmptyTrim l) n) = nonEmptyTrim l := by
  show (if (trimZerosB (padTo (nonEmptyTrim l) n)).length = 0 then [(0 : ℚ)]
      else trimZerosB (padTo (nonEmptyTrim l) n)) = nonEmptyTrim l
  rw [trimZerosB_padTo_nonEmptyTrim]
  rfl

theorem nonEmptyTrim_length (l : List ℚ) :
    (nonEmptyTrim l).length = max (trimZerosB l).length 1 := by
  unfold nonEmptyTrim
  split <;> rename_i h <;> simp <;> omega

theorem padTo_length (l : List ℚ) (n : ℕ) (h : l.length ≤ n) :
    (padTo l n).length = n := by
  unfold padTo
  simp only [List.length_append, List.length_replicate]
  omega

theorem lt_trimZerosB_length_of_nz (l : List ℚ) (i : ℕ)
    (hil : i < l.length) (hnz : l.getD i 0 ≠ 0) :
    i < (trimZerosB l).length := by
  induction l generalizing i with
  | nil => simp at hil
  | cons x xs ih =>
    cases i with
    | zero =>
      have hx : x ≠ 0 := by simpa using hnz
      cases htx : trimZerosB xs with
      | nil => simp [trimZerosB, htx, hx]
      | cons y ys => simp [trimZerosB, htx]
    | succ j =>
      have hj : j < (trimZerosB xs).length :=
        ih j (by simpa using hil) (by simpa using hnz)
      cases htx : trimZerosB xs with
      | nil => rw [htx] at hj; simp at hj
      | cons y ys =>
        rw [htx] at hj
        simp only [trimZerosB, htx, List.length_cons] at *
        omega

theorem trimZerosB_last_nz (l : List ℚ) :
    trimZerosB l = [] ∨
      ((trimZerosB l).length - 1 < l.length ∧
        l.getD ((trimZerosB l).length - 1) 0 ≠ 0) := by
  induction l with
  | nil => left; rfl
  | cons x xs ih =>
    cases htx : trimZerosB xs with
    | nil =>
      by_cases hx : x = 0
      · left; simp [trimZerosB, htx, hx]
      · right; simp [trimZerosB, htx, hx]
    | cons y ys =>
      right
      have h2 := ih.resolve_left (by rw [htx]; simp)
      rw [htx] at h2
      simp only [List.length_cons] at h2
      simp only [trimZerosB, htx, List.length_cons]
      have hidx : ys.length + 1 + 1 - 1 = ys.length + 1 := by omega
      have hidx2 : ys.length + 1 - 1 = ys.length := by omega
      rw [hidx]
      rw [hidx2] at h2
      refine ⟨by simpa using Nat.succ_lt_succ h2.1, ?_⟩
      simpa using h2.2

theorem hi_nz_eq (kn ks : List ℚ) (i : ℕ) (h : isHighestNZ kn ks i) :
    max (trimZerosB kn).length (trimZerosB ks).length = i + 1 := by
  obtain ⟨hnz, hmax⟩ := h
  have h1 : i + 1 ≤ max (trimZerosB kn).length (trimZerosB ks).length := by
    rcases hnz with ⟨hlt, hne⟩ | ⟨hlt, hne⟩
    · exact le_max_of_le_left (lt_trimZerosB_length_of_nz kn i hlt hne)
    · exact le_max_of_le_right (lt_trimZerosB_length_of_nz ks i hlt hne)
  have h2a : (trimZerosB kn).length ≤ i + 1 := by
    rcases trimZerosB_last_nz kn with he | ⟨hl, hn⟩
    · simp [he]
    · have hj : nzAt kn ks ((trimZerosB kn).length - 1) := Or.inl ⟨hl, hn⟩
      have hb : (trimZerosB kn).length - 1 < max kn.length ks.length :=
        lt_of_lt_of_le hl (le_max_left _ _)
      have := hmax _ hb hj
      omega
  have h2b : (trimZerosB ks).length ≤ i + 1 := by
    rcases trimZerosB_last_nz ks with he | ⟨hl, hn⟩
    · simp [he]
    · have hj : nzAt kn ks ((trimZerosB ks).length - 1) := Or.inr ⟨hl, hn⟩
      have hb : (trimZerosB ks).length - 1 < max kn.length ks.length :=
        lt_of_lt_of_le hl (le_max_right _ _)
      have := hmax _ hb hj
      omega
  omega

theorem updateArrays_order_eq (kn ks : List ℚ) (m : ℕ) (i : ℕ)
    (h : isHighestNZ kn ks i) :
    (updateArrays kn ks m).2.2 = max (i + 1) m := by
  have hh := hi_nz_eq kn ks i h
  simp only [updateArrays, nonEmptyTrim_length]
  omega

/-! ## Claim theorems -/

/-- C2: for every `ElementPosition` constructed from any length, location
and reference values, `position.start + length = position.end` (the
`start` / `end` properties go through `get_position`, which succeeds on
these keys). -/
theorem elementPosition_start_add_length_eq_end (length location reference : ℚ) :
    ∃ s e : ℚ,
      (ElementPosition.make length location reference).getPosition "start" = some s ∧
      (ElementPosition.make length location reference).getPosition "end" = some e ∧
      s + length = e := by
  refine ⟨location + reference - length / 2, location + reference + length / 2, ?_, ?_, by ring⟩
  · simp [ElementPosition.make, ElementPosition.getPosition, calcPosition]
  · simp [ElementPosition.make, ElementPosition.getPosition, calcPosition]

/-- C3: for every `ElementPosition` constructed from any length, location
and reference values, `position.position = (position.start +
position.end) / 2`. -/
theorem elementPosition_centre_eq_midpoint (length location reference : ℚ) :
    ∃ c s e : ℚ,
      (ElementPosition.make length location reference).getPosition "centre" = some c ∧
      (ElementPosition.make length location reference).getPosition "start" = some s ∧
      (ElementPosition.make length location reference).getPosition "end" = some e ∧
      c = (s + e) / 2 := by
  refine ⟨location + reference, location + reference - length / 2,
    location + reference + length / 2, ?_, ?_, ?_, by ring⟩
  · simp [ElementPosition.make, ElementPosition.getPosition, calcPosition]
  · simp [ElementPosition.make, ElementPosition.getPosition, calcPosition]
  · simp [ElementPosition.make, ElementPosition.getPosition, calcPosition]

/-- C5: after construction and after every assignment through the
`length`, `location` or `reference` property setter, the derived position
dict stays consistent with the stored fields: centre = location +
reference, start = centre - length/2, end = centre + length/2. -/
theorem elementPosition_setters_keep_consistency
    (length location reference v : ℚ) (p : ElementPosition) :
    positionConsistent (ElementPosition.make length location reference) ∧
    positionConsistent (p.setLength v) ∧
    positionConsistent (p.setLocation v) ∧
    positionConsistent (p.setReference v) :=
  ⟨⟨rfl, rfl, rfl⟩, ⟨rfl, rfl, rfl⟩, ⟨rfl, rfl, rfl⟩, ⟨rfl, rfl, rfl⟩⟩

/-- C6: `DipoleEdgeData` construction succeeds exactly when `side` is the
string `"entrance"` or `"exit"`; any other value trips the
`__post_init__` assertion (modelled by `none`). -/
theorem dipoleEdgeData_make_isSome_iff (h e1 : ℚ) (side : String) :
    (DipoleEdgeData.make h e1 side).isSome ↔ (side = "entrance" ∨ side = "exit") := by
  by_cases hs : side = "entrance" ∨ side = "exit" <;>
    simp [DipoleEdgeData.make, hs]

/-- C9: a `RectangularAperture` built from a 4-entry size list
`[left, right, bottom, up]` stores offset `[(left+right)/2, (bottom+up)/2]`
and size `[x_offset - left, y_offset - bottom]`; any other input length is
stored unchanged. -/
theorem rectangularAperture_make_spec (left right bottom up : ℚ)
    (sz : List ℚ) (ty : Option String) (off : List ℚ) (hlen : sz.length ≠ 4) :
    (RectangularAperture.make [left, right, bottom, up] ty off).aperture_offset
        = [(left + right) / 2, (bottom + up) / 2] ∧
    (RectangularAperture.make [left, right, bottom, up] ty off).aperture_size
        = [(left + right) / 2 - left, (bottom + up) / 2 - bottom] ∧
    RectangularAperture.make sz ty off =
      { aperture_size := sz, aperture_type := ty, aperture_offset := off } := by
  refine ⟨rfl, rfl, ?_⟩
  rcases sz with _ | ⟨a, _ | ⟨b, _ | ⟨c, _ | ⟨d, _ | ⟨e, rest⟩⟩⟩⟩⟩
  · rfl
  · rfl
  · rfl
  · rfl
  · exact absurd rfl hlen
  · rfl

/-- Witness for C9 at `left=1, right=2, bottom=3, up=4` and the length-3
list `[5, 6, 7]`. -/
theorem rectangularAperture_make_spec_witness :
    (RectangularAperture.make [1, 2, 3, 4] none [0]).aperture_offset
        = [((1 : ℚ) + 2) / 2, ((3 : ℚ) + 4) / 2] ∧
    (RectangularAperture.make [1, 2, 3, 4] none [0]).aperture_size
        = [((1 : ℚ) + 2) / 2 - 1, ((3 : ℚ) + 4) / 2 - 3] ∧
    RectangularAperture.make [5, 6, 7] none [0] =
      { aperture_size := [5, 6, 7], aperture_type := none, aperture_offset := [0] } :=
  rectangularAperture_make_spec 1 2 3 4 [5, 6, 7] none [0] (by decide)

/-- C10: `get_position` trips its assertion (modelled by `none`) on every
`loc` outside `{'centre', 'start', 'end'}`, and on those three keys it
returns the corresponding stored `_position` entry. -/
theorem elementPosition_getPosition_spec (p : ElementPosition) (loc : String)
    (hloc : loc ≠ "centre" ∧ loc ≠ "start" ∧ loc ≠ "end") :
    p.getPosition loc = none ∧
    p.getPosition "centre" = some p.position.centre ∧
    p.getPosition "start" = some p.position.start ∧
    p.getPosition "end" = some p.position.endpos := by
  obtain ⟨h1, h2, h3⟩ := hloc
  refine ⟨?_, ?_, ?_, ?_⟩ <;> simp [ElementPosition.getPosition, h1, h2, h3]

/-- Witness for C10 at a concrete position record and `loc = "middle"`. -/
theorem elementPosition_getPosition_spec_witness :
    (ElementPosition.make 2 3 4).getPosition "middle" = none ∧
    (ElementPosition.make 2 3 4).getPosition "centre"
        = some (ElementPosition.make 2 3 4).position.centre ∧
    (ElementPosition.make 2 3 4).getPosition "start"
        = some (ElementPosition.make 2 3 4).position.start ∧
    (ElementPosition.make 2 3 4).getPosition "end"
        = some (ElementPosition.make 2 3 4).position.endpos :=
  elementPosition_getPosition_spec (ElementPosition.make 2 3 4) "middle"
    ⟨by decide, by decide, by decide⟩

/-- C4: after construction of a `MultipoleStrengthData` or a
`ThinMultipoleStrengthData` from any coefficient input, the normal and
skew coefficient arrays have equal length and that length equals the
record's `order` field. -/
theorem multipole_arrays_length_eq_order (kn ks : List ℚ) (pol : Option ℤ) :
    (MultipoleStrengthData.make kn ks pol).kn.length
        = (MultipoleStrengthData.make kn ks pol).order ∧
    (MultipoleStrengthData.make kn ks pol).ks.length
        = (MultipoleStrengthData.make kn ks pol).order ∧
    (ThinMultipoleStrengthData.make kn ks pol).knl.length
        = (ThinMultipoleStrengthData.make kn ks pol).order ∧
    (ThinMultipoleStrengthData.make kn ks pol).ksl.length
        = (ThinMultipoleStrengthData.make kn ks pol).order := by
  unfold MultipoleStrengthData.make ThinMultipoleStrengthData.make updateArrays
  refine ⟨?_, ?_, ?_, ?_⟩ <;> (apply padTo_length; omega)

/-- C8: the multipole array normalization is idempotent at the public
interface: rebuilding a `MultipoleStrengthData` from the `kn` / `ks`
arrays (and polarity) of an already-built one reproduces the record, in
particular the same `kn`, `ks` and `order`. -/
theorem multipole_make_idempotent (kn ks : List ℚ) (pol : Option ℤ) :
    MultipoleStrengthData.make (MultipoleStrengthData.make kn ks pol).kn
        (MultipoleStrengthData.make kn ks pol).ks pol
      = MultipoleStrengthData.make kn ks pol := by
  unfold MultipoleStrengthData.make updateArrays
  simp only [nonEmptyTrim_padTo]

/-- C7: zero-valued optional fields are replaced by their absent default
at construction: `ElementID` turns a `slot_id` / `assembly_id` of `0` into
`None` and keeps non-zero values; `QuadrupoleData`, `SextupoleData` and
`OctupoleData` turn a `kmax` / `kmin` of `0.0` into `None` and keep
non-zero values. -/
theorem zero_optional_fields_spec (v : ℤ) (w : ℚ) (hv : v ≠ 0) (hw : w ≠ 0)
    (kn ks : List ℚ) (pol : Option ℤ) (ka kb : Option ℚ)
    (hkn : 3 < kn.length) (hks : 3 < ks.length) :
    ElementID.make (some 0) (some 0) = { slot_id := none, assembly_id := none } ∧
    ElementID.make (some v) (some v) = { slot_id := some v, assembly_id := some v } ∧
    (∃ d : QuadrupoleData,
        QuadrupoleData.make kn ks pol ka kb (some 0) (some 0) = some d ∧
        d.kmax = none ∧ d.kmin = none) ∧
    (∃ d : QuadrupoleData,
        QuadrupoleData.make kn ks pol ka kb (some w) (some w) = some d ∧
        d.kmax = some w ∧ d.kmin = some w) ∧
    (∃ d : SextupoleData,
        SextupoleData.make kn ks pol ka kb (some 0) (some 0) = some d ∧
        d.kmax = none ∧ d.kmin = none) ∧
    (∃ d : SextupoleData,
        SextupoleData.make kn ks pol ka kb (some w) (some w) = some d ∧
        d.kmax = some w ∧ d.kmin = some w) ∧
    (∃ d : OctupoleData,
        OctupoleData.make kn ks pol ka kb (some 0) (some 0) = some d ∧
        d.kmax = none ∧ d.kmin = none) ∧
    (∃ d : OctupoleData,
        OctupoleData.make kn ks pol ka kb (some w) (some w) = some d ∧
        d.kmax = some w ∧ d.kmin = some w) := by
  have hq : 1 < kn.length ∧ 1 < ks.length := ⟨by omega, by omega⟩
  have hs : 2 < kn.length ∧ 2 < ks.length := ⟨by omega, by omega⟩
  have ho : 3 < kn.length ∧ 3 < ks.length := ⟨hkn, hks⟩
  refine ⟨?_, ?_, ?_, ?_, ?_, ?_, ?_, ?_⟩
  · simp [ElementID.make]
  · simp [ElementID.make, hv]
  · exact ⟨_, by rw [QuadrupoleData.make, if_pos hq], by simp [zeroToNone],
      by simp [zeroToNone]⟩
  · exact ⟨_, by rw [QuadrupoleData.make, if_pos hq], by simp [zeroToNone, hw],
      by simp [zeroToNone, hw]⟩
  · exact ⟨_, by rw [SextupoleData.make, if_pos hs], by simp [zeroToNone],
      by simp [zeroToNone]⟩
  · exact ⟨_, by rw [SextupoleData.make, if_pos hs], by simp [zeroToNone, hw],
      by simp [zeroToNone, hw]⟩
  · exact ⟨_, by rw [OctupoleData.make, if_pos ho], by simp [zeroToNone],
      by simp [zeroToNone]⟩
  · exact ⟨_, by rw [OctupoleData.make, if_pos ho], by simp [zeroToNone, hw],
      by simp [zeroToNone, hw]⟩

/-- Witness for C7 at `v = 1`, `w = 1` and the default-shaped arrays
`[0, 0, 0, 0]`. -/
theorem zero_optional_fields_spec_witness :
    ElementID.make (some 0) (some 0) = { slot_id := none, assembly_id := none } ∧
    ElementID.make (some 1) (some 1) = { slot_id := some 1, assembly_id := some 1 } ∧
    (∃ d : QuadrupoleData,
        QuadrupoleData.make [0, 0, 0, 0] [0, 0, 0, 0] none none none (some 0) (some 0)
          = some d ∧ d.kmax = none ∧ d.kmin = none) ∧
    (∃ d : QuadrupoleData,
        QuadrupoleData.make [0, 0, 0, 0] [0, 0, 0, 0] none none none (some 1) (some 1)
          = some d ∧ d.kmax = some 1 ∧ d.kmin = some 1) ∧
    (∃ d : SextupoleData,
        SextupoleData.make [0, 0, 0, 0] [0, 0, 0, 0] none none none (some 0) (some 0)
          = some d ∧ d.kmax = none ∧ d.kmin = none) ∧
    (∃ d : SextupoleData,
        SextupoleData.make [0, 0, 0, 0] [0, 0, 0, 0] none none none (some 1) (some 1)
          = some d ∧ d.kmax = some 1 ∧ d.kmin = some 1) ∧
    (∃ d : OctupoleData,
        OctupoleData.make [0, 0, 0, 0] [0, 0, 0, 0] none none none (some 0) (some 0)
          = some d ∧ d.kmax = none ∧ d.kmin = none) ∧
    (∃ d : OctupoleData,
        OctupoleData.make [0, 0, 0, 0] [0, 0, 0, 0] none none none (some 1) (some 1)
          = some d ∧ d.kmax = some 1 ∧ d.kmin = some 1) :=
  zero_optional_fields_spec 1 1 (by decide) (by decide)
    [0, 0, 0, 0] [0, 0, 0, 0] none none none (by decide) (by decide)

/-- C1 counterexample: for the input `kn = [1]`, `ks = [0, 0, 0, 0]` the
highest index of a non-zero coefficient is `0`, yet the resulting `order`
field is `1`, not `0`: the claim "order equals the highest index of a
non-zero coefficient" fails. -/
theorem multipole_order_counterexample :
    isHighestNZ [1] [0, 0, 0, 0] 0 ∧
    (MultipoleStrengthData.make [1] [0, 0, 0, 0] none).order = 1 ∧
    (MultipoleStrengthData.make [1] [0, 0, 0, 0] none).order ≠ 0 := by
  refine ⟨by decide, by decide, by decide⟩

/-- C1 (amended): whenever the coefficient arrays carry a non-zero entry,
the resulting `order` equals the maximum of the variant's minimum order
(1 for `MultipoleStrengthData` and `ThinMultipoleStrengthData`, 2 / 3 / 4
for the quadrupole / sextupole / octupole variants) and ONE PLUS the
highest index of a non-zero coefficient; for the quadrupole / sextupole /
octupole variants the effective arrays are the inputs after `k1`/`k2`/`k3`
and `k1s`/`k2s`/`k3s` (defaulting to `0`) are written at index 1 / 2 / 3. -/
theorem multipole_order_eq_one_plus_highest_nz
    (kn ks : List ℚ) (pol : Option ℤ) (i : ℕ) (h : isHighestNZ kn ks i) :
    (MultipoleStrengthData.make kn ks pol).order = i + 1 ∧
    (ThinMultipoleStrengthData.make kn ks pol).order = i + 1 ∧
    (∀ (k1 k1s kmax kmin : Option ℚ) (j : ℕ) (d : QuadrupoleData),
        QuadrupoleData.make kn ks pol k1 k1s kmax kmin = some d →
        isHighestNZ (kn.set 1 (k1.getD 0)) (ks.set 1 (k1s.getD 0)) j →
        d.order = max (j + 1) 2) ∧
    (∀ (k2 k2s kmax kmin : Option ℚ) (j : ℕ) (d : SextupoleData),
        SextupoleData.make kn ks pol k2 k2s kmax kmin = some d →
        isHighestNZ (kn.set 2 (k2.getD 0)) (ks.set 2 (k2s.getD 0)) j →
        d.order = max (j + 1) 3) ∧
    (∀ (k3 k3s kmax kmin : Option ℚ) (j : ℕ) (d : OctupoleData),
        OctupoleData.make kn ks pol k3 k3s kmax kmin = some d →
        isHighestNZ (kn.set 3 (k3.getD 0)) (ks.set 3 (k3s.getD 0)) j →
        d.order = max (j + 1) 4) := by
  refine ⟨?_, ?_, ?_, ?_, ?_⟩
  · have := updateArrays_order_eq kn ks 1 i h
    show (updateArrays kn ks 1).2.2 = i + 1
    omega
  · have := updateArrays_order_eq kn ks 1 i h
    show (updateArrays kn ks 1).2.2 = i + 1
    omega
  · intro k1 k1s kmax kmin j d hd hj
    rw [QuadrupoleData.make] at hd
    split at hd
    · cases hd
      exact updateArrays_order_eq _ _ 2 j hj
    · cases hd
  · intro k2 k2s kmax kmin j d hd hj
    rw [SextupoleData.make] at hd
    split at hd
    · cases hd
      exact updateArrays_order_eq _ _ 3 j hj
    · cases hd
  · intro k3 k3s kmax kmin j d hd hj
    rw [OctupoleData.make] at hd
    split at hd
    · cases hd
      exact updateArrays_order_eq _ _ 4 j hj
    · cases hd

/-- Witness for the amended C1 at `kn = [0, 1]`, `ks = [0, 0]`, whose
highest non-zero index is `1`. -/
theorem multipole_order_eq_one_plus_highest_nz_witness :
    (MultipoleStrengthData.make [0, 1] [0, 0] none).order = 1 + 1 ∧
    (ThinMultipoleStrengthData.make [0, 1] [0, 0] none).order = 1 + 1 ∧
    (∀ (k1 k1s kmax kmin : Option ℚ) (j : ℕ) (d : QuadrupoleData),
        QuadrupoleData.make [0, 1] [0, 0] none k1 k1s kmax kmin = some d →
        isHighestNZ (([0, 1] : List ℚ).set 1 (k1.getD 0))
          (([0, 0] : List ℚ).set 1 (k1s.getD 0)) j →
        d.order = max (j + 1) 2) ∧
    (∀ (k2 k2s kmax kmin : Option ℚ) (j : ℕ) (d : SextupoleData),
        SextupoleData.make [0, 1] [0, 0] none k2 k2s kmax kmin = some d →
        isHighestNZ (([0, 1] : List ℚ).set 2 (k2.getD 0))
          (([0, 0] : List ℚ).set 2 (k2s.getD 0)) j →
        d.order = max (j + 1) 3) ∧
    (∀ (k3 k3s kmax kmin : Option ℚ) (j : ℕ) (d : OctupoleData),
        OctupoleData.make [0, 1] [0, 0] none k3 k3s kmax kmin = some d →
        isHighestNZ (([0, 1] : List ℚ).set 3 (k3.getD 0))
          (([0, 0] : List ℚ).set 3 (k3s.getD 0)) j →
        d.order = max (j + 1) 4) :=
  multipole_order_eq_one_plus_highest_nz [0, 1] [0, 0] none 1 (by decide)

end Xseq
